import Mathlib

/-!
Verification of the antenna motor-control subsystem of the
Panel-Sterowania radiotelescope repository
(`Panel_sterowania_radioteleskop/antena/sterowniki/antenna_controller.py`,
together with the calibration endpoints of `api_server/main.py`).

Modelling conventions: Python floats are embedded as exact rationals (`ℚ`),
Python ints as `ℤ` (or `Nat` for byte values), byte strings as `List Nat`.
Each controller method is embedded as a pure function from the controller
record — plus a driver-behaviour oracle standing for the `MotorDriver`
object — to the ordered list of field assignments and driver invocations it
performs, paired with the exception kind it raises, if any (`none` means the
method returns normally).
-/

/-- States of the antenna state machine (the `AntennaState` enum). -/
inductive AntennaState
  | idle
  | moving
  | error
  | stopped
  | calibrating
deriving DecidableEq

/-- Kinds of Python exceptions raised by the embedded code.  `valueError`
is Python's builtin `ValueError` (the spec's ValidationError kind);
`commShortFrame` and `commChecksumMismatch` are the two distinct
`CommunicationError` raise sites inside `ModbusMotorDriver._send_command`
(message "Niepełna odpowiedź od sterownika" resp. "Błąd CRC w odpowiedzi"). -/
inductive ErrKind
  | valueError
  | safetyError
  | positionError
  | antennaError
  | commShortFrame
  | commChecksumMismatch
deriving DecidableEq

/-- Embeds the `Position` dataclass.  In the source it is a plain
(non-frozen) `@dataclass`, so its fields remain assignable after
construction; the record here carries no bound invariant, the bounds are
checked only by `mkPosition` below, exactly as `__post_init__` checks them
only at construction time. -/
structure Position where
  azimuth : ℚ
  elevation : ℚ
deriving DecidableEq

/-- Embeds dataclass construction of `Position`, including the
`Position.__post_init__` validation: raises `ValueError` when the azimuth
is outside 0–360 or the elevation outside 0–90 (azimuth checked first). -/
def mkPosition (azimuth elevation : ℚ) : Except ErrKind Position :=
  if ¬ (0 ≤ azimuth ∧ azimuth ≤ 360) then .error .valueError
  else if ¬ (0 ≤ elevation ∧ elevation ≤ 90) then .error .valueError
  else .ok ⟨azimuth, elevation⟩

/-- Embeds the Python attribute assignment `p.azimuth = v` on a constructed
`Position`.  Because the dataclass is not frozen, the assignment succeeds
for every value and `__post_init__` is not re-run. -/
def Position.set_azimuth (p : Position) (v : ℚ) : Except ErrKind Position :=
  .ok { p with azimuth := v }

/-- Embeds the `AntennaLimits` dataclass. -/
structure AntennaLimits where
  min_azimuth : ℚ
  max_azimuth : ℚ
  min_elevation : ℚ
  max_elevation : ℚ
  max_azimuth_speed : ℚ
  max_elevation_speed : ℚ
deriving DecidableEq

/-- Embeds the `MotorConfig` dataclass. -/
structure MotorConfig where
  steps_per_revolution : ℤ
  microsteps : ℤ
  gear_ratio_azimuth : ℚ
  gear_ratio_elevation : ℚ
deriving DecidableEq

/-- Embeds the `MotorConfig.steps_per_degree_azimuth` property:
`steps_per_revolution * microsteps * gear_ratio_azimuth / 360.0`. -/
def MotorConfig.steps_per_degree_azimuth (c : MotorConfig) : ℚ :=
  ((c.steps_per_revolution : ℚ) * (c.microsteps : ℚ) * c.gear_ratio_azimuth) / 360

/-- Embeds the `MotorConfig.steps_per_degree_elevation` property. -/
def MotorConfig.steps_per_degree_elevation (c : MotorConfig) : ℚ :=
  ((c.steps_per_revolution : ℚ) * (c.microsteps : ℚ) * c.gear_ratio_elevation) / 360

/-- Embeds one iteration of the inner bit loop of
`ModbusMotorDriver._calculate_crc`:
`if crc & 1: crc = (crc >> 1) ^ 0xA001 else: crc >>= 1`. -/
def crcShift (crc : Nat) : Nat :=
  if crc &&& 1 = 1 then (crc >>> 1) ^^^ 0xA001 else crc >>> 1

/-- Embeds `ModbusMotorDriver._calculate_crc`: starts from `0xFFFF`, XORs
each byte in and runs the bit loop eight times per byte. -/
def calculate_crc (data : List Nat) : Nat :=
  data.foldl (fun crc byte => crcShift^[8] (crc ^^^ byte)) 0xFFFF

/-- Embeds `struct.unpack('<H', bs)[0]`: the little-endian 16-bit value of
the first two bytes. -/
def le16 : List Nat → Nat
  | b0 :: b1 :: _ => b0 + 256 * b1
  | [b0] => b0
  | [] => 0

/-- Embeds the response-decoding half of `ModbusMotorDriver._send_command`:
a response shorter than 5 bytes raises `CommunicationError` ("Niepełna
odpowiedź od sterownika"); otherwise the trailing two little-endian bytes
are compared with the CRC recomputed over the preceding bytes, a mismatch
raising `CommunicationError` ("Błąd CRC w odpowiedzi"); on success the
response is returned with the two CRC bytes stripped. -/
def decodeResponse (response : List Nat) : Except ErrKind (List Nat) :=
  if response.length < 5 then .error .commShortFrame
  else
    let body := response.take (response.length - 2)
    if le16 (response.drop (response.length - 2)) ≠ calculate_crc body then
      .error .commChecksumMismatch
    else .ok body

/-- Embeds Python's `int()` applied to a (here: exact-rational) float:
truncation toward zero. -/
def pyInt (q : ℚ) : ℤ := if 0 ≤ q then ⌊q⌋ else ⌈q⌉

/-- Embeds the mutable fields of `AntennaController` relevant to the state
machine, together with its immutable configuration.  The `motor_driver`
object and the monitoring thread are modelled separately, via driver
behaviour oracles and event traces. -/
structure AntennaController where
  motor_config : MotorConfig
  limits : AntennaLimits
  state : AntennaState
  current_position : Position
  target_position : Option Position
deriving DecidableEq

/-- Observable effects of a controller method, in program order: field
assignments on the controller and invocations of the motor driver. -/
inductive Ev
  | setState (s : AntennaState)
  | setTarget (t : Option Position)
  | setCurrent (p : Position)
  | drvMove (azimuth_steps elevation_steps : ℤ)
  | drvStop
deriving DecidableEq

/-- Applies one effect to the controller record; driver invocations do not
change controller fields. -/
def applyEv (c : AntennaController) : Ev → AntennaController
  | .setState s => { c with state := s }
  | .setTarget t => { c with target_position := t }
  | .setCurrent p => { c with current_position := p }
  | .drvMove _ _ => c
  | .drvStop => c

/-- Runs an effect trace from a controller state. -/
def runEvents (c : AntennaController) (es : List Ev) : AntennaController :=
  es.foldl applyEv c

/-- Selects the driver invocations of a trace. -/
def Ev.isDriverCall : Ev → Bool
  | .drvMove _ _ => true
  | .drvStop => true
  | _ => false

/-- The sublist of driver invocations of an effect trace. -/
def driverCalls (es : List Ev) : List Ev := es.filter Ev.isDriverCall

/-- Behaviour oracle for the `MotorDriver` during a single controller call:
whether `move_to_position` resp. `stop` raise an exception when invoked. -/
structure DriverBehavior where
  move_raises : Bool
  stop_raises : Bool

/-- Embeds `AntennaController._validate_position`: raises `SafetyError`
when the azimuth is outside `limits.min_azimuth ..  limits.max_azimuth`
(checked first) or the elevation outside its limits. -/
def AntennaController.validate_position (c : AntennaController) (position : Position) :
    Option ErrKind :=
  if ¬ (c.limits.min_azimuth ≤ position.azimuth ∧
        position.azimuth ≤ c.limits.max_azimuth) then
    some .safetyError
  else if ¬ (c.limits.min_elevation ≤ position.elevation ∧
             position.elevation ≤ c.limits.max_elevation) then
    some .safetyError
  else none

/-- Embeds `AntennaController.move_to`: rejects when the state is `ERROR`,
then validates against the limits, converts degrees to steps with Python's
`int()`, assigns `target_position`, assigns `state = MOVING`, and invokes
`motor_driver.move_to_position`; if the driver raises, the state is set to
`ERROR` and `PositionError` is raised. -/
def AntennaController.move_to (c : AntennaController) (position : Position)
    (drv : DriverBehavior) : List Ev × Option ErrKind :=
  if c.state = AntennaState.error then ([], some .antennaError)
  else
    match c.validate_position position with
    | some e => ([], some e)
    | none =>
      let az_steps := pyInt (position.azimuth * c.motor_config.steps_per_degree_azimuth)
      let el_steps := pyInt (position.elevation * c.motor_config.steps_per_degree_elevation)
      if drv.move_raises then
        ([.setTarget (some position), .setState .moving, .drvMove az_steps el_steps,
          .setState .error], some .positionError)
      else
        ([.setTarget (some position), .setState .moving, .drvMove az_steps el_steps], none)

/-- Embeds `AntennaController.stop`: invokes `motor_driver.stop` (with no
guard on the current state), then assigns `state = STOPPED` and
`target_position = None`; if the driver raises, the state is set to
`ERROR` and `AntennaError` is raised. -/
def AntennaController.stop (_c : AntennaController) (drv : DriverBehavior) :
    List Ev × Option ErrKind :=
  if drv.stop_raises then ([.drvStop, .setState .error], some .antennaError)
  else ([.drvStop, .setState .stopped, .setTarget none], none)

/-- Embeds `AntennaController.calibrate`: assigns `state = CALIBRATING`
(before any check), then calls `move_to(Position(0.0, 0.0))`; an exception
from `move_to` propagates.  The busy-wait loop `while state == MOVING`
terminates once the monitoring thread observes the end of motion, after
which calibrate assigns `state = IDLE`; the wait is abstracted to that
final assignment. -/
def AntennaController.calibrate (c : AntennaController) (drv : DriverBehavior) :
    List Ev × Option ErrKind :=
  let c1 := { c with state := AntennaState.calibrating }
  let mv := c1.move_to ⟨0, 0⟩ drv
  match mv.2 with
  | some e => (Ev.setState .calibrating :: mv.1, some e)
  | none => (Ev.setState .calibrating :: mv.1 ++ [Ev.setState .idle], none)

/-- Behaviour oracle for the `MotorDriver` during one monitoring-loop
iteration: the result of `get_position` (`none` = the call raises, e.g. a
`CommunicationError`) and of `is_moving` (`none` = the call raises). -/
structure MonitorBehavior where
  get_position : Option (ℤ × ℤ)
  is_moving : Option Bool

/-- Embeds one iteration of the `while` body of
`AntennaController._monitor_position`: reads the driver position, converts
steps to degrees, constructs a `Position` (whose validation may itself
raise), assigns `current_position`, and — when the state is `MOVING` —
transitions to `IDLE` if `is_moving()` reports false.  The whole body sits
in a `try`/`except Exception` that logs and assigns `state = ERROR`, so no
exception ever propagates out of an iteration. -/
def AntennaController.monitor_iteration (c : AntennaController) (drv : MonitorBehavior) :
    List Ev × Option ErrKind :=
  match drv.get_position with
  | none => ([.setState .error], none)
  | some (az_steps, el_steps) =>
    let azimuth : ℚ := (az_steps : ℚ) / c.motor_config.steps_per_degree_azimuth
    let elevation : ℚ := (el_steps : ℚ) / c.motor_config.steps_per_degree_elevation
    match mkPosition azimuth elevation with
    | .error _ => ([.setState .error], none)
    | .ok pos =>
      if c.state = AntennaState.moving then
        match drv.is_moving with
        | none => ([.setCurrent pos, .setState .error], none)
        | some mv =>
          if ¬ mv then ([.setCurrent pos, .setState .idle], none)
          else ([.setCurrent pos], none)
      else ([.setCurrent pos], none)

/-- The CRC-16/Modbus reference computation exactly as the spec words it:
initial value `0xFFFF`, each byte XORed in, then eight iterations of
shift-right-by-one (division by two) with a conditional XOR of the
polynomial `0xA001` when the low bit is set (LSB-first). -/
def crcRoundsSpec : Nat → Nat → Nat
  | 0, crc => crc
  | n + 1, crc => crcRoundsSpec n (if crc % 2 = 1 then (crc / 2) ^^^ 0xA001 else crc / 2)

/-- Reference CRC-16/Modbus over a byte sequence, per the spec's words. -/
def crc16_spec (data : List Nat) : Nat :=
  data.foldl (fun crc byte => crcRoundsSpec 8 (crc ^^^ byte)) 0xFFFF

/-- Modelled from the spec: the `PositionCalibration` record (an
azimuth/elevation offset pair in degrees).  The class itself is defined in
`libs/Sterownik/antenna_controller.py`, which is not among the provided
sources — only its callers in `api_server/main.py` are. -/
structure PositionCalibration where
  azimuth_offset : ℚ
  elevation_offset : ℚ
deriving DecidableEq

/-- Modelled from the spec: `apply(raw)` adds the stored offset to a
position (`referenced = raw + offset`). -/
def PositionCalibration.apply (cal : PositionCalibration) (raw : Position) : Position :=
  ⟨raw.azimuth + cal.azimuth_offset, raw.elevation + cal.elevation_offset⟩

/-- Modelled from the spec: `reverse(calibrated)` subtracts the stored
offset (`raw = referenced - offset`). -/
def PositionCalibration.reverse (cal : PositionCalibration) (calibrated : Position) :
    Position :=
  ⟨calibrated.azimuth - cal.azimuth_offset, calibrated.elevation - cal.elevation_offset⟩

/-- Default `AntennaLimits()` values from the dataclass defaults. -/
def defaultLimits : AntennaLimits := ⟨0, 360, 0, 90, 5, 3⟩

/-- Default `MotorConfig()` values from the dataclass defaults. -/
def defaultConfig : MotorConfig := ⟨200, 16, 100, 80⟩

/-- A controller as `AntennaController.__init__` builds it with default
config and limits: state `IDLE`, current position (0, 0), no target. -/
def defaultController : AntennaController :=
  ⟨defaultConfig, defaultLimits, .idle, ⟨0, 0⟩, none⟩

/-- A driver behaviour in which no driver call raises. -/
def driverOk : DriverBehavior := ⟨false, false⟩

/-- A controller whose limits are a tighter subset of the absolute
envelope: azimuth restricted to 0–180. -/
def tightController : AntennaController :=
  ⟨defaultConfig, ⟨0, 180, 0, 90, 5, 3⟩, .idle, ⟨0, 0⟩, none⟩

/-- A controller currently in the `ERROR` state. -/
def errorController : AntennaController :=
  ⟨defaultConfig, defaultLimits, .error, ⟨0, 0⟩, none⟩

/-- A controller currently in the `CALIBRATING` state. -/
def calibratingController : AntennaController :=
  ⟨defaultConfig, defaultLimits, .calibrating, ⟨0, 0⟩, none⟩

/-- One bit iteration of the source CRC loop agrees with the spec's
arithmetic wording of the same step. -/
theorem crcShift_eq (c : Nat) :
    crcShift c = if c % 2 = 1 then (c / 2) ^^^ 0xA001 else c / 2 := by
  simp [crcShift, Nat.and_one_is_mod, Nat.shiftRight_one]

/-- Eight iterations of the source bit loop agree with the spec's
eight-round reference. -/
theorem crcIterate_eq (n c : Nat) : crcShift^[n] c = crcRoundsSpec n c := by
  induction n generalizing c with
  | zero => rfl
  | succ k ih =>
    rw [Function.iterate_succ_apply, crcRoundsSpec, crcShift_eq]
    exact ih _

/-- C2: for every byte sequence, the checksum computed by
`ModbusMotorDriver._calculate_crc` equals the standard CRC-16/Modbus
reference (initial value 0xFFFF, each byte XORed in, then eight iterations
of shift-right-by-one with a conditional XOR of 0xA001 on the low bit,
LSB-first). -/
theorem calculate_crc_eq_crc16_spec (data : List Nat) :
    calculate_crc data = crc16_spec data := by
  unfold calculate_crc crc16_spec
  have h : (fun crc byte => crcShift^[8] (crc ^^^ byte)) =
      fun crc byte => crcRoundsSpec 8 (crc ^^^ byte) := by
    funext crc byte
    exact crcIterate_eq 8 _
  rw [h]

set_option maxRecDepth 4000 in
/-- Sanity vector: CRC-16/Modbus of the ASCII bytes of "123456789" is
0x4B37. -/
theorem calculate_crc_check_vector :
    calculate_crc [0x31, 0x32, 0x33, 0x34, 0x35, 0x36, 0x37, 0x38, 0x39] = 0x4B37 := by
  decide

/-- C8: calibration round-trip — for every position and every stored offset
pair, subtracting the offsets after adding them restores the original
position: `reverse(apply(p)) = p`. -/
theorem calibration_round_trip (cal : PositionCalibration) (p : Position) :
    cal.reverse (cal.apply p) = p := by
  cases p
  simp [PositionCalibration.apply, PositionCalibration.reverse]

/-- C9 counterexample: a constructed `Position` is not immutable — the
field assignment `p.azimuth = 999` on the non-frozen dataclass succeeds
without re-validation, yielding a position whose azimuth violates the
0–360 bound. -/
theorem position_mutation_succeeds :
    Position.set_azimuth ⟨0, 0⟩ 999 = .ok ⟨999, 0⟩ ∧ ¬ ((999 : ℚ) ≤ 360) := by
  exact ⟨rfl, by norm_num⟩

/-- C9 (amended): constructing a `Position` succeeds exactly when
0 ≤ azimuth ≤ 360 and 0 ≤ elevation ≤ 90, and fails with a `ValueError`
(the spec's ValidationError kind) otherwise; however the dataclass is not
frozen, so a field assignment on a constructed `Position` always succeeds
and is not re-validated. -/
theorem mkPosition_bounds (azimuth elevation : ℚ) :
    ((mkPosition azimuth elevation).isOk = true ↔
      (0 ≤ azimuth ∧ azimuth ≤ 360) ∧ (0 ≤ elevation ∧ elevation ≤ 90)) ∧
    (¬ ((0 ≤ azimuth ∧ azimuth ≤ 360) ∧ (0 ≤ elevation ∧ elevation ≤ 90)) →
      mkPosition azimuth elevation = .error .valueError) ∧
    (∀ (p : Position) (v : ℚ), Position.set_azimuth p v = .ok { p with azimuth := v }) := by
  unfold mkPosition
  refine ⟨?_, ?_, fun p v => rfl⟩
  · by_cases h1 : (0 ≤ azimuth ∧ azimuth ≤ 360)
    · by_cases h2 : (0 ≤ elevation ∧ elevation ≤ 90)
      · simp [h1, h2, Except.isOk, Except.toBool]
      · simp [h1, h2, Except.isOk, Except.toBool]
    · simp [h1, Except.isOk, Except.toBool]
  · intro h
    by_cases h1 : (0 ≤ azimuth ∧ azimuth ≤ 360)
    · have h2 : ¬ (0 ≤ elevation ∧ elevation ≤ 90) := fun h2 => h ⟨h1, h2⟩
      simp [h1, h2]
    · simp [h1]

/-- C9 witness: at azimuth 400 (outside 0–360) construction fails with
`ValueError`; at (10, 20) it succeeds; mutation always succeeds. -/
theorem mkPosition_bounds_witness :
    mkPosition 400 50 = .error .valueError ∧ (mkPosition 10 20).isOk = true := by
  refine ⟨(mkPosition_bounds 400 50).2.1 (by norm_num), ?_⟩
  exact ((mkPosition_bounds 10 20).1).mpr (by norm_num)

/-- C1: a `move_to` target outside the configured limits is rejected
before dispatch — no driver invocation occurs, the controller fields are
unchanged, and (from any non-`ERROR` state, where the source reaches the
validation) the raised exception is `SafetyError`. -/
theorem move_to_out_of_limits_rejected (c : AntennaController) (position : Position)
    (drv : DriverBehavior)
    (hout : ¬ (c.limits.min_azimuth ≤ position.azimuth ∧
               position.azimuth ≤ c.limits.max_azimuth) ∨
            ¬ (c.limits.min_elevation ≤ position.elevation ∧
               position.elevation ≤ c.limits.max_elevation)) :
    driverCalls (c.move_to position drv).1 = [] ∧
    runEvents c (c.move_to position drv).1 = c ∧
    (c.state ≠ AntennaState.error → (c.move_to position drv).2 = some ErrKind.safetyError) := by
  have hv : c.validate_position position = some ErrKind.safetyError := by
    unfold AntennaController.validate_position
    rcases hout with h | h
    · rw [if_pos h]
    · by_cases haz : ¬ (c.limits.min_azimuth ≤ position.azimuth ∧
                        position.azimuth ≤ c.limits.max_azimuth)
      · rw [if_pos haz]
      · rw [if_neg haz, if_pos h]
  by_cases hst : c.state = AntennaState.error
  · unfold AntennaController.move_to
    rw [if_pos hst]
    exact ⟨rfl, rfl, fun hne => absurd hst hne⟩
  · unfold AntennaController.move_to
    rw [if_neg hst, hv]
    exact ⟨rfl, rfl, fun _ => rfl⟩

/-- C1 witness: with azimuth limits 0–180, a target at azimuth 200 is
rejected with `SafetyError`, no driver call is recorded, and the
controller is unchanged. -/
theorem move_to_out_of_limits_rejected_witness :
    driverCalls (tightController.move_to ⟨200, 45⟩ driverOk).1 = [] ∧
    runEvents tightController (tightController.move_to ⟨200, 45⟩ driverOk).1 = tightController ∧
    (tightController.move_to ⟨200, 45⟩ driverOk).2 = some ErrKind.safetyError := by
  obtain ⟨h1, h2, h3⟩ :=
    move_to_out_of_limits_rejected tightController ⟨200, 45⟩ driverOk (Or.inl (by decide))
  exact ⟨h1, h2, h3 (by decide)⟩

/-- Python int() truncation of 0.0 is 0. -/
theorem pyInt_zero : pyInt 0 = 0 := by norm_num [pyInt]

/-- Shared evaluation lemma: on a controller not in the `ERROR` state, with
a target that passes validation and a driver whose move command succeeds,
`move_to` performs exactly the assignment of the target, the transition to
`MOVING`, and the driver move command, in that order, and raises nothing. -/
theorem move_to_ok_eval (c : AntennaController) (position : Position)
    (drv : DriverBehavior) (hst : ¬ c.state = AntennaState.error)
    (hv : c.validate_position position = none) (hd : drv.move_raises = false) :
    c.move_to position drv =
      ([.setTarget (some position), .setState .moving,
        .drvMove (pyInt (position.azimuth * c.motor_config.steps_per_degree_azimuth))
                 (pyInt (position.elevation * c.motor_config.steps_per_degree_elevation))],
       none) := by
  unfold AntennaController.move_to
  rw [if_neg hst, hv]
  simp [hd]

/-- Shared evaluation lemma: `calibrate` invoked while the controller is in
the `ERROR` state, with a succeeding driver, assigns `CALIBRATING`, then
runs `move_to(Position(0.0, 0.0))` — whose `ERROR`-state guard no longer
fires — and ends by assigning `IDLE`. -/
theorem calibrate_error_eval :
    errorController.calibrate driverOk =
      ([Ev.setState .calibrating, Ev.setTarget (some ⟨0, 0⟩), Ev.setState .moving,
        Ev.drvMove 0 0, Ev.setState .idle], none) := by
  have hmv : (AntennaController.mk errorController.motor_config errorController.limits
      AntennaState.calibrating errorController.current_position
      errorController.target_position).move_to ⟨0, 0⟩ driverOk =
      ([.setTarget (some ⟨0, 0⟩), .setState .moving, .drvMove 0 0], none) := by
    rw [move_to_ok_eval _ _ _ (by decide) (by decide) rfl]
    norm_num [errorController, defaultConfig, MotorConfig.steps_per_degree_azimuth,
      MotorConfig.steps_per_degree_elevation, pyInt_zero]
  unfold AntennaController.calibrate
  dsimp only
  rw [hmv]
  rfl

/-- C3: evaluation of the code at the failing input.  With the controller
in the `ERROR` state, `calibrate` does NOT fail immediately with
`AntennaError`: because it assigns `state = CALIBRATING` before calling
`move_to`, the `ERROR`-state guard inside `move_to` no longer fires, so a
move command for `Position(0.0, 0.0)` is issued to the driver, no exception
is raised, and the controller ends in `IDLE` — the `ERROR` state is
silently escaped, contradicting both the immediate-rejection claim and the
claim that only `stop()` or re-`initialize()` leave `ERROR`.  (A direct
`move_to` in the `ERROR` state is rejected with `AntennaError` and issues
no driver command, as the claim states.) -/
theorem calibrate_in_error_state_issues_move :
    (errorController.calibrate driverOk).2 = none ∧
    driverCalls (errorController.calibrate driverOk).1 = [Ev.drvMove 0 0] ∧
    (runEvents errorController (errorController.calibrate driverOk).1).state =
      AntennaState.idle ∧
    (errorController.move_to ⟨10, 10⟩ driverOk).2 = some ErrKind.antennaError ∧
    driverCalls (errorController.move_to ⟨10, 10⟩ driverOk).1 = [] := by
  rw [calibrate_error_eval]
  exact ⟨rfl, rfl, rfl, rfl, rfl⟩

/-- Shared evaluation lemma: `move_to` on the default controller at
`Position(45.0, 30.0)` with a succeeding driver. -/
theorem move_to_default_eval :
    defaultController.move_to ⟨45, 30⟩ driverOk =
      ([.setTarget (some ⟨45, 30⟩), .setState .moving, .drvMove 40000 21333], none) := by
  rw [move_to_ok_eval defaultController ⟨45, 30⟩ driverOk (by decide) (by decide) rfl]
  norm_num [pyInt, defaultController, defaultConfig,
    MotorConfig.steps_per_degree_azimuth, MotorConfig.steps_per_degree_elevation]

/-- C4 counterexample: with default `MotorConfig`, `move_to` at
`Position(45.0, 30.0)` sends 40000 azimuth steps and 21333 elevation steps
— not the claimed 400000 and 213333.  Moreover the conversion is Python
`int()` truncation, not `round`: at 1 degree azimuth (888.9 steps/degree)
the code sends 888 steps while rounding would give 889. -/
theorem move_to_conversion_counterexample :
    driverCalls (defaultController.move_to ⟨45, 30⟩ driverOk).1 = [Ev.drvMove 40000 21333] ∧
    driverCalls (defaultController.move_to ⟨45, 30⟩ driverOk).1 ≠ [Ev.drvMove 400000 213333] ∧
    pyInt ((1 : ℚ) * defaultConfig.steps_per_degree_azimuth) = 888 ∧
    round ((1 : ℚ) * defaultConfig.steps_per_degree_azimuth) = 889 := by
  rw [move_to_default_eval]
  refine ⟨rfl, by decide, ?_, ?_⟩
  · norm_num [pyInt, defaultConfig, MotorConfig.steps_per_degree_azimuth]
  · norm_num [round_eq, defaultConfig, MotorConfig.steps_per_degree_azimuth]

/-- C4 (amended): `move_to` converts the target from degrees to integer
steps with Python `int()` truncation, `int(degrees * steps_per_degree)`,
where `steps_per_degree = steps_per_revolution * microsteps * gear_ratio /
360`; in particular, with default `MotorConfig`,
`move_to(Position(45.0, 30.0))` sends azimuth_steps = 40000 and
elevation_steps = 21333 to the driver. -/
theorem move_to_step_conversion (c : AntennaController) (position : Position)
    (drv : DriverBehavior) (hst : ¬ c.state = AntennaState.error)
    (hv : c.validate_position position = none) :
    driverCalls (c.move_to position drv).1 =
      [Ev.drvMove (pyInt (position.azimuth * c.motor_config.steps_per_degree_azimuth))
                  (pyInt (position.elevation * c.motor_config.steps_per_degree_elevation))] ∧
    driverCalls (defaultController.move_to ⟨45, 30⟩ driverOk).1 = [Ev.drvMove 40000 21333] := by
  constructor
  · cases h : drv.move_raises
    · rw [move_to_ok_eval c position drv hst hv h]
      rfl
    · unfold AntennaController.move_to
      rw [if_neg hst, hv]
      simp [h, driverCalls, Ev.isDriverCall]
  · rw [move_to_default_eval]
    rfl

/-- C4 witness: the amended conversion applied to the default controller
at `Position(45.0, 30.0)` with a succeeding driver. -/
theorem move_to_step_conversion_witness :
    driverCalls (defaultController.move_to ⟨45, 30⟩ driverOk).1 =
      [Ev.drvMove
        (pyInt ((⟨45, 30⟩ : Position).azimuth *
          defaultController.motor_config.steps_per_degree_azimuth))
        (pyInt ((⟨45, 30⟩ : Position).elevation *
          defaultController.motor_config.steps_per_degree_elevation))] :=
  (move_to_step_conversion defaultController ⟨45, 30⟩ driverOk (by decide) (by decide)).1

/-- C5: decoding a serial response fails with the short-frame
`CommunicationError` for every response shorter than 5 bytes, fails with
the checksum-mismatch `CommunicationError` for every response of at least
5 bytes whose trailing little-endian 16-bit checksum differs from the CRC
recomputed over the preceding bytes, and otherwise returns the response
with the two checksum bytes stripped. -/
theorem decodeResponse_cases (response : List Nat) :
    (response.length < 5 → decodeResponse response = .error .commShortFrame) ∧
    (5 ≤ response.length →
      le16 (response.drop (response.length - 2)) ≠
        calculate_crc (response.take (response.length - 2)) →
      decodeResponse response = .error .commChecksumMismatch) ∧
    (5 ≤ response.length →
      le16 (response.drop (response.length - 2)) =
        calculate_crc (response.take (response.length - 2)) →
      decodeResponse response = .ok (response.take (response.length - 2))) := by
  refine ⟨fun h => ?_, fun h5 hne => ?_, fun h5 heq => ?_⟩
  · unfold decodeResponse
    rw [if_pos h]
  · have hnl : ¬ response.length < 5 := by omega
    simp [decodeResponse, hnl, hne]
  · have hnl : ¬ response.length < 5 := by omega
    simp [decodeResponse, hnl, heq]

/-- C5 witness: a 3-byte response is a short frame; the 5-byte response
[1, 2, 3, 4, 5] carries trailing checksum 0x0504 ≠ CRC([1, 2, 3]) = 24929
and is a checksum mismatch; the response [1, 2, 3, 97, 97] carries exactly
CRC([1, 2, 3]) = 24929 = 0x6161 little-endian and decodes to [1, 2, 3]. -/
theorem decodeResponse_cases_witness :
    decodeResponse [1, 2, 3] = .error .commShortFrame ∧
    decodeResponse [1, 2, 3, 4, 5] = .error .commChecksumMismatch ∧
    decodeResponse [1, 2, 3, 97, 97] = .ok [1, 2, 3] := by
  refine ⟨(decodeResponse_cases [1, 2, 3]).1 (by decide),
          (decodeResponse_cases [1, 2, 3, 4, 5]).2.1 (by decide) (by decide),
          (decodeResponse_cases [1, 2, 3, 97, 97]).2.2 (by decide) (by decide)⟩

/-- C6: `stop()` from any non-`ERROR` state invokes the driver's `stop`
exactly once; when the driver call succeeds, the state becomes `STOPPED`
and the target is cleared, with no exception; when the driver call raises,
the state becomes `ERROR` and `AntennaError` propagates. -/
theorem stop_always_invokes_driver (c : AntennaController) (drv : DriverBehavior)
    (hst : c.state ≠ AntennaState.error) :
    driverCalls (c.stop drv).1 = [Ev.drvStop] ∧
    (drv.stop_raises = false →
      runEvents c (c.stop drv).1 =
        { c with state := AntennaState.stopped, target_position := none } ∧
      (c.stop drv).2 = none) ∧
    (drv.stop_raises = true →
      (runEvents c (c.stop drv).1).state = AntennaState.error ∧
      (c.stop drv).2 = some ErrKind.antennaError) := by
  unfold AntennaController.stop
  cases h : drv.stop_raises <;>
    simp [h, driverCalls, runEvents, applyEv, Ev.isDriverCall]

/-- C6 witness: stopping the default (idle) controller with a succeeding
driver records exactly one driver stop call, moves to `STOPPED`, clears
the target and raises nothing. -/
theorem stop_always_invokes_driver_witness :
    driverCalls (defaultController.stop driverOk).1 = [Ev.drvStop] ∧
    runEvents defaultController (defaultController.stop driverOk).1 =
      { defaultController with state := AntennaState.stopped, target_position := none } ∧
    (defaultController.stop driverOk).2 = none := by
  obtain ⟨h1, h2, _⟩ := stop_always_invokes_driver defaultController driverOk (by decide)
  exact ⟨h1, (h2 rfl).1, (h2 rfl).2⟩

/-- C7: no iteration of the monitoring loop propagates an exception — the
`try`/`except Exception` body always returns normally, so the loop runs on
and `stop()`/`initialize()` stay callable; and in every iteration in which
the driver raises (in `get_position`, or in `is_moving` once reached), the
iteration sets the controller state to `ERROR`. -/
theorem monitor_iteration_contains_driver_errors (c : AntennaController)
    (drv : MonitorBehavior) :
    (c.monitor_iteration drv).2 = none ∧
    (drv.get_position = none →
      (runEvents c (c.monitor_iteration drv).1).state = AntennaState.error) ∧
    (∀ az_steps el_steps pos,
      drv.get_position = some (az_steps, el_steps) →
      mkPosition ((az_steps : ℚ) / c.motor_config.steps_per_degree_azimuth)
                 ((el_steps : ℚ) / c.motor_config.steps_per_degree_elevation) = .ok pos →
      c.state = AntennaState.moving →
      drv.is_moving = none →
      (runEvents c (c.monitor_iteration drv).1).state = AntennaState.error) := by
  refine ⟨?_, ?_, ?_⟩
  · unfold AntennaController.monitor_iteration
    rcases hgp : drv.get_position with _ | ⟨az_steps, el_steps⟩
    · rfl
    · dsimp only
      rcases hmk : mkPosition ((az_steps : ℚ) / c.motor_config.steps_per_degree_azimuth)
          ((el_steps : ℚ) / c.motor_config.steps_per_degree_elevation) with e | pos
      · rfl
      · dsimp only
        by_cases hst : c.state = AntennaState.moving
        · rw [if_pos hst]
          rcases him : drv.is_moving with _ | mv
          · rfl
          · dsimp only
            by_cases hmv : ¬ mv = true
            · rw [if_pos hmv]
            · rw [if_neg hmv]
        · rw [if_neg hst]
  · intro h
    unfold AntennaController.monitor_iteration
    rw [h]
    rfl
  · intro az_steps el_steps pos hgp hmk hst him
    unfold AntennaController.monitor_iteration
    rw [hgp]
    dsimp only
    rw [hmk]
    dsimp only
    rw [if_pos hst, him]
    rfl

/-- C7 witness: an iteration on the default controller in which
`get_position` raises returns normally (no propagated exception) and
leaves the controller in the `ERROR` state. -/
theorem monitor_iteration_contains_driver_errors_witness :
    (defaultController.monitor_iteration ⟨none, none⟩).2 = none ∧
    (runEvents defaultController (defaultController.monitor_iteration ⟨none, none⟩).1).state =
      AntennaState.error := by
  obtain ⟨h1, h2, _⟩ :=
    monitor_iteration_contains_driver_errors defaultController ⟨none, none⟩
  exact ⟨h1, h2 rfl⟩

/-- C10: `move_to` enforces no source-state precondition other than
not-`ERROR` — from every other state (including `MOVING`, `CALIBRATING`
and `STOPPED`), with an in-limits target and a succeeding driver, it
proceeds, and its effect trace assigns the target position and the
`MOVING` state before the driver move command, raising nothing. -/
theorem move_to_no_state_precondition (c : AntennaController) (position : Position)
    (drv : DriverBehavior) (hst : ¬ c.state = AntennaState.error)
    (hv : c.validate_position position = none) (hd : drv.move_raises = false) :
    (c.move_to position drv).1 =
      [Ev.setTarget (some position), Ev.setState AntennaState.moving,
       Ev.drvMove (pyInt (position.azimuth * c.motor_config.steps_per_degree_azimuth))
                  (pyInt (position.elevation * c.motor_config.steps_per_degree_elevation))] ∧
    (c.move_to position drv).2 = none := by
  rw [move_to_ok_eval c position drv hst hv hd]
  exact ⟨rfl, rfl⟩

/-- C10 witness: from the `CALIBRATING` state, `move_to(Position(45, 30))`
proceeds, assigning the target and `MOVING` before the driver command and
raising nothing. -/
theorem move_to_no_state_precondition_witness :
    (calibratingController.move_to ⟨45, 30⟩ driverOk).1 =
      [Ev.setTarget (some ⟨45, 30⟩), Ev.setState AntennaState.moving,
       Ev.drvMove
         (pyInt ((⟨45, 30⟩ : Position).azimuth *
           calibratingController.motor_config.steps_per_degree_azimuth))
         (pyInt ((⟨45, 30⟩ : Position).elevation *
           calibratingController.motor_config.steps_per_degree_elevation))] ∧
    (calibratingController.move_to ⟨45, 30⟩ driverOk).2 = none :=
  move_to_no_state_precondition calibratingController ⟨45, 30⟩ driverOk
    (by decide) (by decide) rfl
